import Mathlib

/-!
Verification of the Sorbent Capture calculation engine
(`src/components/SorbentCapture.jsx`, `Co2FilterCalculator`).

The engine is a pure arithmetic pipeline: ten preset-constrained scalar
inputs are turned into eight derived quantities by a chain of closed-form
formulas, and the headline output (`weeklyCartridgeSwaps`) is classified
into a four-band status for display.  JavaScript numbers are modelled as
exact rationals (ℚ); every operation in the chain is a multiplication or a
division by a nonzero value on short decimal fractions, so the rational
model tracks the formulas faithfully.
-/

namespace SorbentCapture

/-- The ten input parameters of `Co2FilterCalculator`, plus the unused
`maxStaticPressure` field.  Field names follow the `useState` variables of
the source. -/
structure InputParameters where
  filterWidth : ℚ
  filterLength : ℚ
  filterDepthL : ℚ
  airflowQ : ℚ
  dailyRuntime : ℚ
  maxStaticPressure : ℚ
  sorbentCaptureEfficiencyEta : ℚ
  sorbentWorkingCapacityCw : ℚ
  initialCo2ConcentrationCin : ℚ
  sorbentMassFraction : ℚ
  maxCartridgeWeight : ℚ
  deriving Repr, DecidableEq

/-- The eight derived quantities returned by the `calculations` `useMemo`
block. -/
structure DerivedOutputs where
  frontalAreaA : ℚ
  airVelocityV : ℚ
  residenceTimeTau : ℚ
  hourlyCo2CaptureRateY : ℚ
  requiredSorbentMass : ℚ
  totalWeeklyCo2Capture : ℚ
  totalFilterWeight : ℚ
  weeklyCartridgeSwaps : ℚ
  deriving Repr, DecidableEq

/-- The calculation chain of the `calculations` `useMemo` block
(`SorbentCapture.jsx` lines 95–117), transcribed line for line. -/
def evaluate (p : InputParameters) : DerivedOutputs :=
  let frontalAreaA := (p.filterWidth * 0.0254) * (p.filterLength * 0.0254)
  let airVelocityV := p.airflowQ / frontalAreaA
  let residenceTimeTau := p.filterDepthL / airVelocityV
  let hourlyCo2CaptureRateY :=
    (p.airflowQ * p.initialCo2ConcentrationCin * p.sorbentCaptureEfficiencyEta) * 3600
  let totalWeeklyCo2Capture := hourlyCo2CaptureRateY * p.dailyRuntime * 7
  let requiredSorbentMass := totalWeeklyCo2Capture / p.sorbentWorkingCapacityCw
  let totalFilterWeight := requiredSorbentMass / p.sorbentMassFraction
  let weeklyCartridgeSwaps := totalFilterWeight / p.maxCartridgeWeight
  { frontalAreaA := frontalAreaA
    airVelocityV := airVelocityV
    residenceTimeTau := residenceTimeTau
    hourlyCo2CaptureRateY := hourlyCo2CaptureRateY
    requiredSorbentMass := requiredSorbentMass
    totalWeeklyCo2Capture := totalWeeklyCo2Capture
    totalFilterWeight := totalFilterWeight
    weeklyCartridgeSwaps := weeklyCartridgeSwaps }

/-- The default selection of every input, from the `useState` initialisers. -/
def defaults : InputParameters :=
  { filterWidth := 20
    filterLength := 20
    filterDepthL := 0.1
    airflowQ := 0.47
    dailyRuntime := 6
    maxStaticPressure := 80
    sorbentCaptureEfficiencyEta := 0.018
    sorbentWorkingCapacityCw := 0.08
    initialCo2ConcentrationCin := 0.0007
    sorbentMassFraction := 0.7
    maxCartridgeWeight := 10 }

/-- Preset values of the `Filter Width` control. -/
def filterWidthPresets : List ℚ := [20, 24, 25]

/-- Preset values of the `Filter Length` control. -/
def filterLengthPresets : List ℚ := [20, 24, 25]

/-- Preset values of the `Filter Depth (L)` control. -/
def filterDepthPresets : List ℚ := [0.1, 0.12, 0.15]

/-- Preset values of the `Airflow (Q)` control. -/
def airflowPresets : List ℚ := [0.47, 0.57, 0.66]

/-- Preset values of the `Daily Runtime` control. -/
def dailyRuntimePresets : List ℚ := [6, 8, 10]

/-- Preset values of the `Sorbent Capture Efficiency` control. -/
def sorbentCaptureEfficiencyPresets : List ℚ := [0.018, 0.022, 0.025]

/-- Preset values of the `Sorbent Working Capacity` control. -/
def sorbentWorkingCapacityPresets : List ℚ := [0.08, 0.1, 0.12]

/-- Preset values of the `Initial CO2 Concentration` control. -/
def initialCo2ConcentrationPresets : List ℚ := [0.0007, 0.0008, 0.0009]

/-- Preset values of the `Sorbent Mass Fraction` control. -/
def sorbentMassFractionPresets : List ℚ := [0.7, 0.75, 0.8]

/-- Preset values of the `Max Cartridge Weight` control. -/
def maxCartridgeWeightPresets : List ℚ := [10, 12.5, 15]

/-- Every settable field of the record is drawn from its preset list
(this is what the radio-button UI enforces). -/
def ValidPresets (p : InputParameters) : Prop :=
  p.filterWidth ∈ filterWidthPresets ∧
  p.filterLength ∈ filterLengthPresets ∧
  p.filterDepthL ∈ filterDepthPresets ∧
  p.airflowQ ∈ airflowPresets ∧
  p.dailyRuntime ∈ dailyRuntimePresets ∧
  p.sorbentCaptureEfficiencyEta ∈ sorbentCaptureEfficiencyPresets ∧
  p.sorbentWorkingCapacityCw ∈ sorbentWorkingCapacityPresets ∧
  p.initialCo2ConcentrationCin ∈ initialCo2ConcentrationPresets ∧
  p.sorbentMassFraction ∈ sorbentMassFractionPresets ∧
  p.maxCartridgeWeight ∈ maxCartridgeWeightPresets

instance (p : InputParameters) : Decidable (ValidPresets p) := by
  unfold ValidPresets; infer_instance

/-- The four display bands of `FinalOutputDisplay`. -/
inductive Band where
  | bad
  | okay
  | good
  | great
  deriving Repr, DecidableEq

/-- The `getStatusClass` helper of `FinalOutputDisplay` (lines 55–60): a
four-band step function, evaluated top-down, first matching threshold
winning. -/
def getStatusClass (val : ℚ) : Band :=
  if val ≥ 3 then .bad
  else if val ≥ 2 then .okay
  else if val ≥ 1 then .good
  else .great

/-- JavaScript `x.toFixed(1)` reparsed as a number: `x` rounded to the
nearest tenth, ties resolved towards the larger candidate (the ECMAScript
rule: pick the larger `n` when two are equally close). -/
def jsToFixed1 (x : ℚ) : ℚ := (⌊x * 10 + 1 / 2⌋ : ℚ) / 10

/-- The band actually rendered for the headline output: the component is
invoked with `value={calculations.weeklyCartridgeSwaps.toFixed(1)}`
(line 259), and JavaScript's `>=` coerces that string back to the rounded
number inside `getStatusClass`. -/
def displayedBand (weeklyCartridgeSwaps : ℚ) : Band :=
  getStatusClass (jsToFixed1 weeklyCartridgeSwaps)

/-- A member of a three-element list of positive rationals is positive. -/
lemma mem_triple_pos {x a b c : ℚ} (ha : 0 < a) (hb : 0 < b) (hc : 0 < c)
    (hx : x ∈ [a, b, c]) : 0 < x := by
  rcases List.mem_cons.mp hx with h | hx
  · exact h ▸ ha
  rcases List.mem_cons.mp hx with h | hx
  · exact h ▸ hb
  rcases List.mem_cons.mp hx with h | hx
  · exact h ▸ hc
  · exact absurd hx (List.not_mem_nil x)

/-- Every field drawn from its preset list is strictly positive (every
preset value of every control is positive). -/
lemma validPresets_pos (p : InputParameters) (hp : ValidPresets p) :
    0 < p.filterWidth ∧ 0 < p.filterLength ∧ 0 < p.filterDepthL ∧
    0 < p.airflowQ ∧ 0 < p.dailyRuntime ∧
    0 < p.sorbentCaptureEfficiencyEta ∧ 0 < p.sorbentWorkingCapacityCw ∧
    0 < p.initialCo2ConcentrationCin ∧ 0 < p.sorbentMassFraction ∧
    0 < p.maxCartridgeWeight := by
  obtain ⟨h1, h2, h3, h4, h5, h6, h7, h8, h9, h10⟩ := hp
  rw [filterWidthPresets] at h1
  rw [filterLengthPresets] at h2
  rw [filterDepthPresets] at h3
  rw [airflowPresets] at h4
  rw [dailyRuntimePresets] at h5
  rw [sorbentCaptureEfficiencyPresets] at h6
  rw [sorbentWorkingCapacityPresets] at h7
  rw [initialCo2ConcentrationPresets] at h8
  rw [sorbentMassFractionPresets] at h9
  rw [maxCartridgeWeightPresets] at h10
  exact ⟨mem_triple_pos (by norm_num) (by norm_num) (by norm_num) h1,
    mem_triple_pos (by norm_num) (by norm_num) (by norm_num) h2,
    mem_triple_pos (by norm_num) (by norm_num) (by norm_num) h3,
    mem_triple_pos (by norm_num) (by norm_num) (by norm_num) h4,
    mem_triple_pos (by norm_num) (by norm_num) (by norm_num) h5,
    mem_triple_pos (by norm_num) (by norm_num) (by norm_num) h6,
    mem_triple_pos (by norm_num) (by norm_num) (by norm_num) h7,
    mem_triple_pos (by norm_num) (by norm_num) (by norm_num) h8,
    mem_triple_pos (by norm_num) (by norm_num) (by norm_num) h9,
    mem_triple_pos (by norm_num) (by norm_num) (by norm_num) h10⟩

/-- On inputs with all fields positive, every derived output is strictly
positive. -/
lemma evaluate_pos (p : InputParameters)
    (hw : 0 < p.filterWidth) (hl : 0 < p.filterLength)
    (hd : 0 < p.filterDepthL) (hq : 0 < p.airflowQ)
    (hr : 0 < p.dailyRuntime) (he : 0 < p.sorbentCaptureEfficiencyEta)
    (hc : 0 < p.sorbentWorkingCapacityCw)
    (hi : 0 < p.initialCo2ConcentrationCin)
    (hm : 0 < p.sorbentMassFraction) (hx : 0 < p.maxCartridgeWeight) :
    0 < (evaluate p).frontalAreaA ∧ 0 < (evaluate p).airVelocityV ∧
    0 < (evaluate p).residenceTimeTau ∧
    0 < (evaluate p).hourlyCo2CaptureRateY ∧
    0 < (evaluate p).totalWeeklyCo2Capture ∧
    0 < (evaluate p).requiredSorbentMass ∧
    0 < (evaluate p).totalFilterWeight ∧
    0 < (evaluate p).weeklyCartridgeSwaps := by
  have hA : 0 < (evaluate p).frontalAreaA :=
    mul_pos (mul_pos hw (by norm_num)) (mul_pos hl (by norm_num))
  have hV : 0 < (evaluate p).airVelocityV := div_pos hq hA
  have hT : 0 < (evaluate p).residenceTimeTau := div_pos hd hV
  have hY : 0 < (evaluate p).hourlyCo2CaptureRateY :=
    mul_pos (mul_pos (mul_pos hq hi) he) (by norm_num)
  have hW : 0 < (evaluate p).totalWeeklyCo2Capture :=
    mul_pos (mul_pos hY hr) (by norm_num)
  have hS : 0 < (evaluate p).requiredSorbentMass := div_pos hW hc
  have hF : 0 < (evaluate p).totalFilterWeight := div_pos hS hm
  have hK : 0 < (evaluate p).weeklyCartridgeSwaps := div_pos hF hx
  exact ⟨hA, hV, hT, hY, hW, hS, hF, hK⟩

/-- C1: `evaluate` computes the eight derived quantities by the specified
formula chain, each later quantity from the unrounded earlier ones:
frontalArea from the inch→meter converted dimensions, airVelocity =
airflow / frontalArea, residenceTime = depth / airVelocity,
hourlyCo2CaptureRate = airflow · Cin · η · 3600, totalWeeklyCo2Capture =
hourly · runtime · 7, requiredSorbentMass = weekly / Cw,
totalFilterWeight = sorbentMass / massFraction, weeklyCartridgeSwaps =
filterWeight / maxCartridgeWeight. -/
theorem evaluate_formula_chain (p : InputParameters) :
    (evaluate p).frontalAreaA
      = (p.filterWidth * 0.0254) * (p.filterLength * 0.0254) ∧
    (evaluate p).airVelocityV = p.airflowQ / (evaluate p).frontalAreaA ∧
    (evaluate p).residenceTimeTau
      = p.filterDepthL / (evaluate p).airVelocityV ∧
    (evaluate p).hourlyCo2CaptureRateY
      = p.airflowQ * p.initialCo2ConcentrationCin *
        p.sorbentCaptureEfficiencyEta * 3600 ∧
    (evaluate p).totalWeeklyCo2Capture
      = (evaluate p).hourlyCo2CaptureRateY * p.dailyRuntime * 7 ∧
    (evaluate p).requiredSorbentMass
      = (evaluate p).totalWeeklyCo2Capture / p.sorbentWorkingCapacityCw ∧
    (evaluate p).totalFilterWeight
      = (evaluate p).requiredSorbentMass / p.sorbentMassFraction ∧
    (evaluate p).weeklyCartridgeSwaps
      = (evaluate p).totalFilterWeight / p.maxCartridgeWeight :=
  ⟨rfl, rfl, rfl, rfl, rfl, rfl, rfl, rfl⟩

/-- C6: `evaluate` is deterministic: two inputs that agree field for field
on all eleven fields produce identical derived outputs. -/
theorem evaluate_deterministic (p q : InputParameters)
    (h : p.filterWidth = q.filterWidth ∧ p.filterLength = q.filterLength ∧
      p.filterDepthL = q.filterDepthL ∧ p.airflowQ = q.airflowQ ∧
      p.dailyRuntime = q.dailyRuntime ∧
      p.maxStaticPressure = q.maxStaticPressure ∧
      p.sorbentCaptureEfficiencyEta = q.sorbentCaptureEfficiencyEta ∧
      p.sorbentWorkingCapacityCw = q.sorbentWorkingCapacityCw ∧
      p.initialCo2ConcentrationCin = q.initialCo2ConcentrationCin ∧
      p.sorbentMassFraction = q.sorbentMassFraction ∧
      p.maxCartridgeWeight = q.maxCartridgeWeight) :
    evaluate p = evaluate q := by
  cases p
  cases q
  obtain ⟨rfl, rfl, rfl, rfl, rfl, rfl, rfl, rfl, rfl, rfl, rfl⟩ := h
  rfl

/-- Witness for C6: the determinism theorem applied to two copies of the
default inputs. -/
theorem evaluate_deterministic_witness : evaluate defaults = evaluate defaults :=
  evaluate_deterministic defaults defaults
    ⟨rfl, rfl, rfl, rfl, rfl, rfl, rfl, rfl, rfl, rfl, rfl⟩

/-- C10: the derived outputs are independent of `maxStaticPressure`: two
inputs agreeing on every field except possibly `maxStaticPressure` produce
identical derived outputs. -/
theorem evaluate_ignores_maxStaticPressure (p q : InputParameters)
    (h : p.filterWidth = q.filterWidth ∧ p.filterLength = q.filterLength ∧
      p.filterDepthL = q.filterDepthL ∧ p.airflowQ = q.airflowQ ∧
      p.dailyRuntime = q.dailyRuntime ∧
      p.sorbentCaptureEfficiencyEta = q.sorbentCaptureEfficiencyEta ∧
      p.sorbentWorkingCapacityCw = q.sorbentWorkingCapacityCw ∧
      p.initialCo2ConcentrationCin = q.initialCo2ConcentrationCin ∧
      p.sorbentMassFraction = q.sorbentMassFraction ∧
      p.maxCartridgeWeight = q.maxCartridgeWeight) :
    evaluate p = evaluate q := by
  cases p
  cases q
  obtain ⟨rfl, rfl, rfl, rfl, rfl, rfl, rfl, rfl, rfl, rfl⟩ := h
  rfl

/-- Witness for C10: the defaults with `maxStaticPressure` replaced by 0
produce the same derived outputs as the defaults. -/
theorem evaluate_ignores_maxStaticPressure_witness :
    evaluate { defaults with maxStaticPressure := 0 } = evaluate defaults :=
  evaluate_ignores_maxStaticPressure _ _
    ⟨rfl, rfl, rfl, rfl, rfl, rfl, rfl, rfl, rfl, rfl⟩

/-- C5: for every combination of preset values, every divisor of the
chain (frontalArea, airVelocity, sorbentWorkingCapacity,
sorbentMassFraction, maxCartridgeWeight) is nonzero and every one of the
eight derived outputs is a well-defined finite (here: strictly positive)
rational — no division by zero arises. -/
theorem evaluate_finite_on_presets (p : InputParameters)
    (hp : ValidPresets p) :
    (evaluate p).frontalAreaA ≠ 0 ∧ (evaluate p).airVelocityV ≠ 0 ∧
    p.sorbentWorkingCapacityCw ≠ 0 ∧ p.sorbentMassFraction ≠ 0 ∧
    p.maxCartridgeWeight ≠ 0 ∧
    0 < (evaluate p).frontalAreaA ∧ 0 < (evaluate p).airVelocityV ∧
    0 < (evaluate p).residenceTimeTau ∧
    0 < (evaluate p).hourlyCo2CaptureRateY ∧
    0 < (evaluate p).totalWeeklyCo2Capture ∧
    0 < (evaluate p).requiredSorbentMass ∧
    0 < (evaluate p).totalFilterWeight ∧
    0 < (evaluate p).weeklyCartridgeSwaps := by
  obtain ⟨hw, hl, hd, hq, hr, he, hc, hi, hm, hx⟩ := validPresets_pos p hp
  obtain ⟨hA, hV, hT, hY, hW, hS, hF, hK⟩ :=
    evaluate_pos p hw hl hd hq hr he hc hi hm hx
  exact ⟨ne_of_gt hA, ne_of_gt hV, ne_of_gt hc, ne_of_gt hm, ne_of_gt hx,
    hA, hV, hT, hY, hW, hS, hF, hK⟩

/-- Witness for C5: the default inputs are a valid preset combination and
their headline output is positive. -/
theorem evaluate_finite_on_presets_witness :
    ValidPresets defaults ∧ 0 < (evaluate defaults).weeklyCartridgeSwaps := by
  have hp : ValidPresets defaults := by
    refine ⟨?_, ?_, ?_, ?_, ?_, ?_, ?_, ?_, ?_, ?_⟩ <;>
      simp [defaults, filterWidthPresets, filterLengthPresets,
        filterDepthPresets, airflowPresets, dailyRuntimePresets,
        sorbentCaptureEfficiencyPresets, sorbentWorkingCapacityPresets,
        initialCo2ConcentrationPresets, sorbentMassFractionPresets,
        maxCartridgeWeightPresets]
  exact ⟨hp, (evaluate_finite_on_presets defaults hp).2.2.2.2.2.2.2.2.2.2.2.2⟩

/-- C7: with all other fields at any valid presets, a strictly larger
`maxCartridgeWeight` (drawn from its preset list) gives a strictly
smaller `weeklyCartridgeSwaps`. -/
theorem weeklyCartridgeSwaps_strictAnti_maxCartridgeWeight
    (p : InputParameters) (hp : ValidPresets p) (m₁ m₂ : ℚ)
    (h₁ : m₁ ∈ maxCartridgeWeightPresets)
    (h₂ : m₂ ∈ maxCartridgeWeightPresets) (hlt : m₁ < m₂) :
    (evaluate { p with maxCartridgeWeight := m₂ }).weeklyCartridgeSwaps <
    (evaluate { p with maxCartridgeWeight := m₁ }).weeklyCartridgeSwaps := by
  obtain ⟨hw, hl, hd, hq, hr, he, hc, hi, hm, hx⟩ := validPresets_pos p hp
  obtain ⟨_, _, _, _, _, _, hF, _⟩ :=
    evaluate_pos p hw hl hd hq hr he hc hi hm hx
  have hm₁ : 0 < m₁ := by
    rw [maxCartridgeWeightPresets] at h₁
    exact mem_triple_pos (by norm_num) (by norm_num) (by norm_num) h₁
  show (evaluate p).totalFilterWeight / m₂ <
    (evaluate p).totalFilterWeight / m₁
  exact div_lt_div_of_pos_left hF hm₁ hlt

/-- Witness for C7: at the defaults, moving `maxCartridgeWeight` from the
preset 10 to the preset 12.5 strictly decreases `weeklyCartridgeSwaps`. -/
theorem weeklyCartridgeSwaps_strictAnti_maxCartridgeWeight_witness :
    (evaluate { defaults with maxCartridgeWeight := 12.5 }).weeklyCartridgeSwaps <
    (evaluate { defaults with maxCartridgeWeight := 10 }).weeklyCartridgeSwaps := by
  refine weeklyCartridgeSwaps_strictAnti_maxCartridgeWeight defaults ?_ 10 12.5 ?_ ?_ ?_
  · refine ⟨?_, ?_, ?_, ?_, ?_, ?_, ?_, ?_, ?_, ?_⟩ <;>
      simp [defaults, filterWidthPresets, filterLengthPresets,
        filterDepthPresets, airflowPresets, dailyRuntimePresets,
        sorbentCaptureEfficiencyPresets, sorbentWorkingCapacityPresets,
        initialCo2ConcentrationPresets, sorbentMassFractionPresets,
        maxCartridgeWeightPresets]
  · simp [maxCartridgeWeightPresets]
  · simp [maxCartridgeWeightPresets]
  · norm_num

/-- C8: with all other fields at any valid presets, a strictly larger
`sorbentCaptureEfficiency` (drawn from its preset list) gives a strictly
larger `hourlyCo2CaptureRate`. -/
theorem hourlyCo2CaptureRate_strictMono_efficiency
    (p : InputParameters) (hp : ValidPresets p) (e₁ e₂ : ℚ)
    (h₁ : e₁ ∈ sorbentCaptureEfficiencyPresets)
    (h₂ : e₂ ∈ sorbentCaptureEfficiencyPresets) (hlt : e₁ < e₂) :
    (evaluate { p with sorbentCaptureEfficiencyEta := e₁ }).hourlyCo2CaptureRateY <
    (evaluate { p with sorbentCaptureEfficiencyEta := e₂ }).hourlyCo2CaptureRateY := by
  obtain ⟨hw, hl, hd, hq, hr, _, hc, hi, hm, hx⟩ := validPresets_pos p hp
  show (p.airflowQ * p.initialCo2ConcentrationCin * e₁) * 3600 <
    (p.airflowQ * p.initialCo2ConcentrationCin * e₂) * 3600
  have hqi : 0 < p.airflowQ * p.initialCo2ConcentrationCin := mul_pos hq hi
  have h : p.airflowQ * p.initialCo2ConcentrationCin * e₁ <
      p.airflowQ * p.initialCo2ConcentrationCin * e₂ :=
    mul_lt_mul_of_pos_left hlt hqi
  exact mul_lt_mul_of_pos_right h (by norm_num)

/-- Witness for C8: at the defaults, moving the efficiency from the preset
0.018 to the preset 0.022 strictly increases `hourlyCo2CaptureRate`. -/
theorem hourlyCo2CaptureRate_strictMono_efficiency_witness :
    (evaluate { defaults with sorbentCaptureEfficiencyEta := 0.018 }).hourlyCo2CaptureRateY <
    (evaluate { defaults with sorbentCaptureEfficiencyEta := 0.022 }).hourlyCo2CaptureRateY := by
  refine hourlyCo2CaptureRate_strictMono_efficiency defaults ?_ 0.018 0.022 ?_ ?_ ?_
  · refine ⟨?_, ?_, ?_, ?_, ?_, ?_, ?_, ?_, ?_, ?_⟩ <;>
      simp [defaults, filterWidthPresets, filterLengthPresets,
        filterDepthPresets, airflowPresets, dailyRuntimePresets,
        sorbentCaptureEfficiencyPresets, sorbentWorkingCapacityPresets,
        initialCo2ConcentrationPresets, sorbentMassFractionPresets,
        maxCartridgeWeightPresets]
  · simp [sorbentCaptureEfficiencyPresets]
  · simp [sorbentCaptureEfficiencyPresets]
  · norm_num

/-- C9: starting from the defaults and changing only `filterWidth` from
20 to 25, `airVelocity` strictly decreases, while `hourlyCo2CaptureRate`
and `totalWeeklyCo2Capture` are exactly unchanged. -/
theorem filterWidth_25_effects :
    (evaluate { defaults with filterWidth := 25 }).airVelocityV <
      (evaluate defaults).airVelocityV ∧
    (evaluate { defaults with filterWidth := 25 }).hourlyCo2CaptureRateY =
      (evaluate defaults).hourlyCo2CaptureRateY ∧
    (evaluate { defaults with filterWidth := 25 }).totalWeeklyCo2Capture =
      (evaluate defaults).totalWeeklyCo2Capture := by
  refine ⟨?_, rfl, rfl⟩
  show (0.47 : ℚ) / ((25 * 0.0254) * (20 * 0.0254)) <
    (0.47 : ℚ) / ((20 * 0.0254) * (20 * 0.0254))
  norm_num

/-- Counterexample to C2: the classification actually applied to the
headline output rounds to one decimal first (`.toFixed(1)` at line 259),
so a raw `weeklyCartridgeSwaps` of 2.999 renders as band "bad", not
"okay", and a raw 0.999 renders as band "good", not "great". -/
theorem displayedBand_2999_bad_not_okay :
    displayedBand 2.999 = Band.bad ∧ displayedBand 2.999 ≠ Band.okay ∧
    displayedBand 0.999 = Band.good ∧ displayedBand 0.999 ≠ Band.great := by
  have hb : displayedBand 2.999 = Band.bad := by
    norm_num [displayedBand, jsToFixed1, getStatusClass]
  have hg : displayedBand 0.999 = Band.good := by
    norm_num [displayedBand, jsToFixed1, getStatusClass]
  refine ⟨hb, ?_, hg, ?_⟩
  · rw [hb]
    exact fun h => Band.noConfusion h
  · rw [hg]
    exact fun h => Band.noConfusion h

/-- C2 (amended): the four-band step function is applied to the headline
output rounded to one decimal place (the `toFixed(1)` string, numerically
coerced by the `>=` comparisons): with r the rounded value, r ≥ 3 gives
"bad", 2 ≤ r < 3 gives "okay", 1 ≤ r < 2 gives "good", r < 1 gives
"great"; in particular raw 3.0 → "bad", 2.999 → "bad", 1.0 → "good",
0.999 → "good", 0 → "great". -/
theorem displayedBand_step_function (v : ℚ) :
    (3 ≤ jsToFixed1 v → displayedBand v = Band.bad) ∧
    (2 ≤ jsToFixed1 v → jsToFixed1 v < 3 → displayedBand v = Band.okay) ∧
    (1 ≤ jsToFixed1 v → jsToFixed1 v < 2 → displayedBand v = Band.good) ∧
    (jsToFixed1 v < 1 → displayedBand v = Band.great) ∧
    displayedBand 3 = Band.bad ∧ displayedBand 2.999 = Band.bad ∧
    displayedBand 1 = Band.good ∧ displayedBand 0.999 = Band.good ∧
    displayedBand 0 = Band.great := by
  refine ⟨?_, ?_, ?_, ?_, ?_, ?_, ?_, ?_, ?_⟩
  · intro h
    simp only [displayedBand, getStatusClass, if_pos h]
  · intro h2 h3
    simp only [displayedBand, getStatusClass, if_neg (not_le.mpr h3), if_pos h2]
  · intro h1 h2
    have hn3 : ¬ jsToFixed1 v ≥ 3 := not_le.mpr (by linarith)
    have hn2 : ¬ jsToFixed1 v ≥ 2 := not_le.mpr h2
    simp only [displayedBand, getStatusClass, if_neg hn3, if_neg hn2, if_pos h1]
  · intro h1
    have hn3 : ¬ jsToFixed1 v ≥ 3 := not_le.mpr (by linarith)
    have hn2 : ¬ jsToFixed1 v ≥ 2 := not_le.mpr (by linarith)
    have hn1 : ¬ jsToFixed1 v ≥ 1 := not_le.mpr h1
    simp only [displayedBand, getStatusClass, if_neg hn3, if_neg hn2, if_neg hn1]
  all_goals norm_num [displayedBand, jsToFixed1, getStatusClass]

/-- Witness for C2 (amended): at a raw value of 2.97 the rounded value is
3.0, which is ≥ 3, and the displayed band is "bad". -/
theorem displayedBand_step_function_witness :
    (3 : ℚ) ≤ jsToFixed1 2.97 ∧ displayedBand 2.97 = Band.bad :=
  ⟨by norm_num [jsToFixed1],
   (displayedBand_step_function 2.97).1 (by norm_num [jsToFixed1])⟩

/-- C3: the band rendered for the headline output is computed from
`weeklyCartridgeSwaps` rounded to one decimal place, not from the raw
value; consequently every raw value in [2.95, 3) displays as band
"bad". -/
theorem displayedBand_rounds_first (v : ℚ) (h1 : 2.95 ≤ v) (h2 : v < 3) :
    displayedBand v = getStatusClass (jsToFixed1 v) ∧
    displayedBand v = Band.bad := by
  have hfloor : ⌊v * 10 + 1 / 2⌋ = (30 : ℤ) := by
    rw [Int.floor_eq_iff]
    constructor
    · push_cast
      linarith
    · push_cast
      linarith
  refine ⟨rfl, ?_⟩
  simp only [displayedBand, jsToFixed1, hfloor]
  norm_num [getStatusClass]

/-- Witness for C3: the raw value 2.999 lies in [2.95, 3) and displays as
band "bad". -/
theorem displayedBand_rounds_first_witness :
    (2.95 : ℚ) ≤ 2.999 ∧ (2.999 : ℚ) < 3 ∧ displayedBand 2.999 = Band.bad :=
  ⟨by norm_num, by norm_num,
   (displayedBand_rounds_first 2.999 (by norm_num) (by norm_num)).2⟩

/-- Counterexample to C4: at the defaults the exact
`totalWeeklyCo2Capture` is 0.8954064, which differs from the stated
≈ 0.8960 by more than half a unit in the last stated decimal place (it
rounds to 0.8954, not 0.8960); likewise `hourlyCo2CaptureRate` is exactly
0.0213192, which rounds to 0.02132, not the stated 0.02133. -/
theorem evaluate_defaults_not_as_stated :
    (evaluate defaults).totalWeeklyCo2Capture = 0.8954064 ∧
    (evaluate defaults).totalWeeklyCo2Capture < 0.8960 - 1 / 20000 ∧
    (evaluate defaults).hourlyCo2CaptureRateY = 0.0213192 ∧
    (evaluate defaults).hourlyCo2CaptureRateY < 0.02133 - 1 / 200000 := by
  refine ⟨?_, ?_, ?_, ?_⟩ <;> norm_num [evaluate, defaults]

/-- C4 (amended): at the documented defaults, `evaluate` yields exactly
frontalArea = 0.258064 (≈ 0.2581), airVelocity = 29375/16129 (≈ 1.821),
residenceTime = 16129/293750 (≈ 0.0549), hourlyCo2CaptureRate = 0.0213192
(≈ 0.02132), totalWeeklyCo2Capture = 0.8954064 (≈ 0.8954),
requiredSorbentMass = 11.19258 (≈ 11.19), totalFilterWeight = 15.9894
(≈ 15.99), weeklyCartridgeSwaps = 1.59894 (≈ 1.599), and the
classification of the result (raw and as rendered) is band "good". -/
theorem evaluate_defaults_exact :
    (evaluate defaults).frontalAreaA = 0.258064 ∧
    (evaluate defaults).airVelocityV = 29375 / 16129 ∧
    (evaluate defaults).residenceTimeTau = 16129 / 293750 ∧
    (evaluate defaults).hourlyCo2CaptureRateY = 0.0213192 ∧
    (evaluate defaults).totalWeeklyCo2Capture = 0.8954064 ∧
    (evaluate defaults).requiredSorbentMass = 11.19258 ∧
    (evaluate defaults).totalFilterWeight = 15.9894 ∧
    (evaluate defaults).weeklyCartridgeSwaps = 1.59894 ∧
    getStatusClass (evaluate defaults).weeklyCartridgeSwaps = Band.good ∧
    displayedBand (evaluate defaults).weeklyCartridgeSwaps = Band.good := by
  refine ⟨?_, ?_, ?_, ?_, ?_, ?_, ?_, ?_, ?_, ?_⟩ <;>
    norm_num [evaluate, defaults, getStatusClass, displayedBand, jsToFixed1]

end SorbentCapture
